import Mathlib

/-!
Verification of the order-lifecycle and payment-settlement core of the
`api-mantas-trenzas` backend, shallowly embedded from the TypeScript source.

Embedded pieces:
* the `Pedido` entity (`src/domain/entities/Pedido.ts`): fields, constructor
  defaults, setters, and the item operations `addItem` / `removeItem` /
  `updateItemCantidad` with `recalcularTotal`;
* `CreatePedidoDTO.toEntity` (`src/application/dtos/PedidoDTO.ts`);
* the MySQL repository's order table operations (`MySQLPedidoRepository`):
  `findById`, `updateEstado`, `updateReferenciaPago`, each a single
  unconditional SQL UPDATE modelled as a pure row transformation;
* the application service `PedidoService.updateEstadoPedido` and
  `PedidoService.procesarPago`.

Timestamps (`new Date()` / `Date.now()`) are modelled by an explicit clock
value `now : Nat` supplied to every mutating operation, and
`Math.floor(Math.random() * 1000)` by an explicit `rand : Nat`.
Money amounts are `Int` (TS `number` used for currency amounts).
-/

namespace MantasTrenzas

/-- `EstadoPedido` enum from `Pedido.ts`. -/
inductive EstadoPedido : Type
  | pendiente
  | pagado
  | enviado
  | entregado
  | cancelado
deriving DecidableEq

/-- `MetodoPago` enum from `Pedido.ts`. -/
inductive MetodoPago : Type
  | stripe
  | paypal
  | transferencia
deriving DecidableEq

/-- `PedidoItem` interface from `Pedido.ts`. -/
structure PedidoItem : Type where
  productoId : Nat
  cantidad : Int
  precioUnitario : Int
  subtotal : Int
deriving DecidableEq

/-- The `Pedido` entity's private fields.  `id`, `referenciaPago`, dates are
optional in the TS class; `createdAt`/`updatedAt` are clock values. -/
structure Pedido : Type where
  id : Option Nat
  usuarioId : Nat
  estado : EstadoPedido
  total : Int
  direccionEnvio : String
  metodoPago : MetodoPago
  referenciaPago : Option String
  items : List PedidoItem
  createdAt : Nat
  updatedAt : Nat
deriving DecidableEq

/-- `items.reduce((sum, item) => sum + item.subtotal, 0)` — the sum of the
line items' subtotals, as folded by `recalcularTotal` and
`CreatePedidoDTO.toEntity`. -/
def sumSubtotals (items : List PedidoItem) : Int :=
  items.foldl (fun sum item => sum + item.subtotal) 0

/-- The `Pedido` constructor: `estado = props.estado || PENDIENTE`,
`items = props.items || []`, `createdAt = props.createdAt || new Date()`,
`updatedAt = props.updatedAt || new Date()`.  All other props are stored
as given — in particular `total` and `referenciaPago` are NOT validated
against the items or the state. -/
def Pedido.make (id : Option Nat) (usuarioId : Nat) (estado : Option EstadoPedido)
    (total : Int) (direccionEnvio : String) (metodoPago : MetodoPago)
    (referenciaPago : Option String) (items : Option (List PedidoItem))
    (createdAt : Option Nat) (updatedAt : Option Nat) (now : Nat) : Pedido :=
  { id := id
    usuarioId := usuarioId
    estado := estado.getD EstadoPedido.pendiente
    total := total
    direccionEnvio := direccionEnvio
    metodoPago := metodoPago
    referenciaPago := referenciaPago
    items := items.getD []
    createdAt := createdAt.getD now
    updatedAt := updatedAt.getD now }

/-- `recalcularTotal`: `this.total = this.items.reduce(..., 0)`. -/
def Pedido.recalcularTotal (p : Pedido) : Pedido :=
  { p with total := sumSubtotals p.items }

/-- `addItem`: push the item, recompute the total, refresh `updatedAt`. -/
def Pedido.addItem (p : Pedido) (item : PedidoItem) (now : Nat) : Pedido :=
  let p' : Pedido := { p with items := p.items ++ [item] }
  { p'.recalcularTotal with updatedAt := now }

/-- `removeItem`: filter out every item with the given product id, recompute
the total, refresh `updatedAt` — all unconditionally, even when no item
matches. -/
def Pedido.removeItem (p : Pedido) (productoId : Nat) (now : Nat) : Pedido :=
  let p' : Pedido := { p with items := p.items.filter (fun item => item.productoId ≠ productoId) }
  { p'.recalcularTotal with updatedAt := now }

/-- `items.find(...)` followed by in-place mutation: update the FIRST item
with the given product id, setting its `cantidad` and
`subtotal = precioUnitario * cantidad`; later duplicates are untouched. -/
def updateFirstItem (items : List PedidoItem) (productoId : Nat) (cantidad : Int) :
    List PedidoItem :=
  match items with
  | [] => []
  | i :: rest =>
    if i.productoId = productoId then
      { i with cantidad := cantidad, subtotal := i.precioUnitario * cantidad } :: rest
    else
      i :: updateFirstItem rest productoId cantidad

/-- `updateItemCantidad`: if an item with the product id exists, mutate it,
recompute the total and refresh `updatedAt`; otherwise do nothing at all. -/
def Pedido.updateItemCantidad (p : Pedido) (productoId : Nat) (cantidad : Int)
    (now : Nat) : Pedido :=
  if p.items.any (fun item => item.productoId = productoId) then
    let p' : Pedido := { p with items := updateFirstItem p.items productoId cantidad }
    { p'.recalcularTotal with updatedAt := now }
  else
    p

/-- `set setTotal`: stores the given total verbatim and refreshes
`updatedAt`; no recomputation from the items. -/
def Pedido.setTotal (p : Pedido) (total : Int) (now : Nat) : Pedido :=
  { p with total := total, updatedAt := now }

/-- `set setEstado`: stores the given state verbatim. -/
def Pedido.setEstado (p : Pedido) (estado : EstadoPedido) (now : Nat) : Pedido :=
  { p with estado := estado, updatedAt := now }

/-- `set setReferenciaPago`: stores the given reference verbatim, in any
state. -/
def Pedido.setReferenciaPago (p : Pedido) (referenciaPago : String) (now : Nat) : Pedido :=
  { p with referenciaPago := some referenciaPago, updatedAt := now }

/-- One call of the Pricing & Composition Engine, with the clock value at
which it runs. -/
inductive PedidoOp : Type
  | add (item : PedidoItem) (now : Nat)
  | remove (productoId : Nat) (now : Nat)
  | updateCantidad (productoId : Nat) (cantidad : Int) (now : Nat)
deriving DecidableEq

/-- Apply one engine call to the entity. -/
def applyOp (p : Pedido) : PedidoOp → Pedido
  | PedidoOp.add item now => p.addItem item now
  | PedidoOp.remove productoId now => p.removeItem productoId now
  | PedidoOp.updateCantidad productoId cantidad now =>
      p.updateItemCantidad productoId cantidad now

/-- Apply a finite sequence of engine calls, left to right. -/
def applyOps (p : Pedido) (ops : List PedidoOp) : Pedido :=
  ops.foldl applyOp p

/-- The total-derivation invariant: the stored total equals the sum of the
line items' subtotals. -/
def totalInv (p : Pedido) : Prop :=
  p.total = sumSubtotals p.items

instance (p : Pedido) : Decidable (totalInv p) := by
  unfold totalInv
  infer_instance

/-! ### `CreatePedidoDTO` (`src/application/dtos/PedidoDTO.ts`) -/

/-- The validated fields of `CreatePedidoDTO`; `referenciaPago` is an
optional string taken from the client request. -/
structure CreatePedidoDTO : Type where
  usuarioId : Nat
  direccionEnvio : String
  metodoPago : MetodoPago
  referenciaPago : Option String
  items : List PedidoItem
deriving DecidableEq

/-- `CreatePedidoDTO.toEntity`: computes the total as the sum of the items'
subtotals and builds a `Pedido` with state `PENDIENTE`, passing the DTO's
optional `referenciaPago` straight through. -/
def CreatePedidoDTO.toEntity (dto : CreatePedidoDTO) (now : Nat) : Pedido :=
  Pedido.make none dto.usuarioId (some EstadoPedido.pendiente)
    (sumSubtotals dto.items) dto.direccionEnvio dto.metodoPago
    dto.referenciaPago (some dto.items) none none now

/-! ### The persisted order store (`MySQLPedidoRepository`)

The `pedidos` table (each row joined with its `pedido_items` rows, as
`mapToEntity` does) is modelled as a list of `Pedido` rows.  `findById` is
`SELECT * FROM pedidos WHERE id = ?` taking the first match; the two
column updates are unconditional `UPDATE ... WHERE id = ?` statements that
also set `updated_at`. -/

structure Db : Type where
  rows : List Pedido
deriving DecidableEq

/-- `findById`: first row whose id matches, or `none` (the TS method
returns `null` when no row matches). -/
def Db.findById (db : Db) (id : Nat) : Option Pedido :=
  db.rows.find? (fun p => p.id = some id)

/-- One `UPDATE pedidos SET ... WHERE id = ?` statement: transform every
row whose id matches. -/
def Db.modifyRow (db : Db) (id : Nat) (f : Pedido → Pedido) : Db :=
  { rows := db.rows.map (fun p => if p.id = some id then f p else p) }

/-- `MySQLPedidoRepository.updateEstado`:
`UPDATE pedidos SET estado = ?, updated_at = ? WHERE id = ?` — no check of
the previous state. -/
def Db.updateEstado (db : Db) (id : Nat) (estado : EstadoPedido) (now : Nat) : Db :=
  db.modifyRow id (fun p => { p with estado := estado, updatedAt := now })

/-- `MySQLPedidoRepository.updateReferenciaPago`:
`UPDATE pedidos SET referencia_pago = ?, updated_at = ? WHERE id = ?`. -/
def Db.updateReferenciaPago (db : Db) (id : Nat) (referenciaPago : String) (now : Nat) : Db :=
  db.modifyRow id (fun p => { p with referenciaPago := some referenciaPago, updatedAt := now })

/-! ### `PedidoService` (application service) -/

/-- `PedidoService.updateEstadoPedido(id, estado)`: delegates to the
repository's unconditional `updateEstado` and returns the re-read row.
There is no transition-legality check anywhere on this path (the HTTP
controller only checks that the target is a member of the enum). -/
def updateEstadoPedido (db : Db) (id : Nat) (estado : EstadoPedido) (now : Nat) :
    Db × Option Pedido :=
  let db' := db.updateEstado id estado now
  (db', db'.findById id)

/-- The `paymentInfo` payload of `procesarPago`; only `referencia` is read,
and only on the `transferencia` branch.  `none` models an absent field and
the empty string is falsy under JS `||`. -/
structure PaymentInfo : Type where
  referencia : Option String
deriving DecidableEq

/-- The result object of `procesarPago`:
`{ success: boolean; referenciaPago?: string; error?: string }`. -/
structure PagoResult : Type where
  success : Bool
  referenciaPago : Option String
  error : Option String
deriving DecidableEq

/-- Storage-exception injection for the three repository calls made by
`procesarPago`; `some msg` means the call throws with that message (a
throwing single-statement UPDATE leaves the table unchanged). -/
structure StorageFaults : Type where
  failFind : Option String
  failRef : Option String
  failEstado : Option String
deriving DecidableEq

/-- A run with no storage exceptions. -/
def noFaults : StorageFaults :=
  { failFind := none, failRef := none, failEstado := none }

/-- The observable outcome of one `procesarPago` run:
the returned result object, the final table, the sequence of durably
visible table states (initial state, then the state after each committed
repository write), and the number of external payment-gateway invocations
performed (the source performs none: the `stripe` and `paypal` branches
synthesize a reference locally and never call `StripeService` or any
PayPal client). -/
structure PagoRun : Type where
  result : PagoResult
  db : Db
  states : List Db
  gatewayCalls : Nat
deriving DecidableEq

/-- The `switch (pedido.getMetodoPago)` of `procesarPago`: `stripe` and
`paypal` synthesize a token from the clock and a random number
(`stripe_${Date.now()}_${Math.floor(Math.random()*1000)}`);
`transferencia` takes `paymentInfo.referencia || transfer_${Date.now()}`
(JS `||`, under which the empty string counts as absent). -/
def referenciaFor (metodoPago : MetodoPago) (paymentInfo : PaymentInfo)
    (now rand : Nat) : String :=
  match metodoPago with
  | MetodoPago.stripe => "stripe_" ++ toString now ++ "_" ++ toString rand
  | MetodoPago.paypal => "paypal_" ++ toString now ++ "_" ++ toString rand
  | MetodoPago.transferencia =>
    match paymentInfo.referencia with
    | some r => if r = "" then "transfer_" ++ toString now else r
    | none => "transfer_" ++ toString now

/-- `PedidoService.procesarPago(pedidoId, paymentInfo)`:
read the order; fail if missing or not `PENDIENTE`; pick the payment
reference by method (`stripe`/`paypal`: locally synthesized token,
`transferencia`: `paymentInfo.referencia || synthesized token`); then two
separate repository writes — `updateReferenciaPago` followed by
`updateEstado(PAGADO)`.  The surrounding `try/catch` turns any thrown
storage error into `{ success: false, error: message }`. -/
def procesarPago (db : Db) (pedidoId : Nat) (paymentInfo : PaymentInfo)
    (now rand : Nat) (faults : StorageFaults) : PagoRun :=
  match faults.failFind with
  | some msg =>
    { result := { success := false, referenciaPago := none, error := some msg }
      db := db, states := [db], gatewayCalls := 0 }
  | none =>
    match db.findById pedidoId with
    | none =>
      { result := { success := false, referenciaPago := none
                    error := some ("Pedido con ID " ++ toString pedidoId ++ " no encontrado") }
        db := db, states := [db], gatewayCalls := 0 }
    | some pedido =>
      if pedido.estado ≠ EstadoPedido.pendiente then
        { result := { success := false, referenciaPago := none
                      error := some "El pedido no está en estado pendiente" }
          db := db, states := [db], gatewayCalls := 0 }
      else
        let referenciaPago : String := referenciaFor pedido.metodoPago paymentInfo now rand
        match faults.failRef with
        | some msg =>
          { result := { success := false, referenciaPago := none, error := some msg }
            db := db, states := [db], gatewayCalls := 0 }
        | none =>
          let db1 := db.updateReferenciaPago pedidoId referenciaPago now
          match faults.failEstado with
          | some msg =>
            { result := { success := false, referenciaPago := none, error := some msg }
              db := db1, states := [db, db1], gatewayCalls := 0 }
          | none =>
            let db2 := db1.updateEstado pedidoId EstadoPedido.pagado now
            { result := { success := true, referenciaPago := some referenciaPago
                          error := none }
              db := db2, states := [db, db1, db2], gatewayCalls := 0 }

/-- The legal-transition table of the specification, §4.2 — written from
the spec's words, to be compared with what the code does (the code has no
such table). -/
def specLegalTransition : EstadoPedido → EstadoPedido → Bool
  | EstadoPedido.pendiente, EstadoPedido.pagado => true
  | EstadoPedido.pendiente, EstadoPedido.cancelado => true
  | EstadoPedido.pagado, EstadoPedido.enviado => true
  | EstadoPedido.enviado, EstadoPedido.entregado => true
  | EstadoPedido.pagado, EstadoPedido.cancelado => true
  | _, _ => false

/-! ### Concrete fixtures used in counterexamples and witnesses -/

/-- C4 counterexample fixture: an order built through the public `Pedido`
constructor with stored total `1` and no items. -/
def pedidoC4 : Pedido :=
  Pedido.make (some 1) 1 (some EstadoPedido.pendiente) 1 "dir" MetodoPago.stripe
    none (some []) none none 0

/-- C4 witness fixture: an order satisfying the total invariant. -/
def pedidoW4 : Pedido :=
  Pedido.make (some 9) 1 (some EstadoPedido.pendiente) 100000 "dir" MetodoPago.stripe
    none (some [⟨1, 2, 50000, 100000⟩]) none none 0

/-- C5 counterexample fixture: an order satisfying the total invariant. -/
def pedidoC5 : Pedido :=
  Pedido.make (some 2) 1 (some EstadoPedido.pendiente) 100000 "dir" MetodoPago.stripe
    none (some [⟨1, 2, 50000, 100000⟩]) none none 0

/-- C9 counterexample fixture: an order with stored total 3, no items, and
`updatedAt = 0`. -/
def pedidoC9 : Pedido :=
  Pedido.make (some 3) 1 (some EstadoPedido.pendiente) 3 "dir" MetodoPago.stripe
    none (some []) none none 0

/-- The exact result object that `procesarPago` returns when the order is
not in `pendiente` state. -/
def notPendingResult : PagoResult :=
  { success := false, referenciaPago := none
    error := some "El pedido no está en estado pendiente" }

/-- `true` iff the table's order with the given id is durably visible as
`pendiente` while already carrying a payment reference. -/
def hasPendingWithRef (d : Db) (id : Nat) : Bool :=
  match d.findById id with
  | some q => decide (q.estado = EstadoPedido.pendiente) && q.referenciaPago.isSome
  | none => false

/-- C1 fixture: an already-`pagado` order. -/
def rowC1a : Pedido :=
  Pedido.make (some 1) 1 (some EstadoPedido.pagado) 100000 "dir"
    MetodoPago.transferencia (some "TR-0") (some [⟨1, 2, 50000, 100000⟩]) none none 0

/-- C1 fixture: a `pendiente` bank-transfer order. -/
def rowC1b : Pedido :=
  Pedido.make (some 2) 1 (some EstadoPedido.pendiente) 25000 "dir"
    MetodoPago.transferencia none (some [⟨3, 1, 25000, 25000⟩]) none none 0

/-- C1 fixture: a store holding one `pagado` order and one `pendiente`
order. -/
def dbC1 : Db :=
  { rows := [rowC1a, rowC1b] }

/-- C2 fixture: a store holding one `pendiente` bank-transfer order. -/
def dbC2 : Db :=
  { rows := [Pedido.make (some 1) 1 (some EstadoPedido.pendiente) 100000 "dir"
      MetodoPago.transferencia none (some [⟨1, 2, 50000, 100000⟩]) none none 0] }

/-- C2 witness fixture: a `pendiente` bank-transfer order. -/
def rowC2w : Pedido :=
  Pedido.make (some 1) 1 (some EstadoPedido.pendiente) 100000 "dir"
    MetodoPago.transferencia none (some [⟨1, 2, 50000, 100000⟩]) none none 0

/-- C2 witness fixture: the store holding `rowC2w`. -/
def dbC2w : Db :=
  { rows := [rowC2w] }

/-- C3 fixture: an `entregado` order. -/
def rowC3 : Pedido :=
  Pedido.make (some 1) 1 (some EstadoPedido.entregado) 100000 "dir"
    MetodoPago.stripe (some "stripe_1_1") (some [⟨1, 2, 50000, 100000⟩]) none none 0

/-- C3 fixture: a store holding one `entregado` order. -/
def dbC3 : Db :=
  { rows := [rowC3] }

/-- C6 fixture: a create-order request that supplies a payment reference. -/
def dtoC6 : CreatePedidoDTO :=
  { usuarioId := 1, direccionEnvio := "dir", metodoPago := MetodoPago.transferencia
    referenciaPago := some "REF-X", items := [⟨1, 2, 50000, 100000⟩] }

/-- C7 fixture: a `pendiente` bank-transfer order. -/
def rowC7 : Pedido :=
  Pedido.make (some 1) 1 (some EstadoPedido.pendiente) 100000 "dir"
    MetodoPago.transferencia none (some [⟨1, 2, 50000, 100000⟩]) none none 0

/-- C7 fixture: a store holding one `pendiente` bank-transfer order. -/
def dbC7 : Db :=
  { rows := [rowC7] }

/-- C8 fixture: a `pendiente` Stripe order. -/
def rowC8 : Pedido :=
  Pedido.make (some 1) 1 (some EstadoPedido.pendiente) 100000 "dir"
    MetodoPago.stripe none (some [⟨1, 2, 50000, 100000⟩]) none none 0

/-- C8 fixture: a store holding one `pendiente` Stripe order. -/
def dbC8 : Db :=
  { rows := [rowC8] }

/-- C10 fixture: a `pendiente` Stripe order. -/
def rowC10 : Pedido :=
  Pedido.make (some 1) 1 (some EstadoPedido.pendiente) 100000 "dir"
    MetodoPago.stripe none (some [⟨1, 2, 50000, 100000⟩]) none none 0

/-- C10 fixture: a store holding one `pendiente` Stripe order. -/
def dbC10 : Db :=
  { rows := [rowC10] }

/-- C10 fixture: a run in which the `updateReferenciaPago` write throws. -/
def faultsC10 : StorageFaults :=
  { failFind := none, failRef := some "connection lost", failEstado := none }

/-! ### Lemmas about the Pricing & Composition Engine -/

theorem totalInv_addItem (p : Pedido) (item : PedidoItem) (now : Nat) :
    totalInv (p.addItem item now) := by
  simp [Pedido.addItem, Pedido.recalcularTotal, totalInv]

theorem totalInv_removeItem (p : Pedido) (productoId now : Nat) :
    totalInv (p.removeItem productoId now) := by
  simp [Pedido.removeItem, Pedido.recalcularTotal, totalInv]

theorem totalInv_updateItemCantidad (p : Pedido) (productoId : Nat) (cantidad : Int)
    (now : Nat) (h : totalInv p) :
    totalInv (p.updateItemCantidad productoId cantidad now) := by
  unfold Pedido.updateItemCantidad
  by_cases hfound : p.items.any (fun item => item.productoId = productoId)
  · simp [hfound, Pedido.recalcularTotal, totalInv]
  · simp only [Bool.not_eq_true] at hfound
    simp [hfound, h]

theorem totalInv_applyOp (p : Pedido) (op : PedidoOp) (h : totalInv p) :
    totalInv (applyOp p op) := by
  cases op with
  | add item now => exact totalInv_addItem p item now
  | remove productoId now => exact totalInv_removeItem p productoId now
  | updateCantidad productoId cantidad now =>
    exact totalInv_updateItemCantidad p productoId cantidad now h

/-! ### Lemmas about the persisted store and `procesarPago` runs -/

theorem find_map_updateRow (rows : List Pedido) (id : Nat) (f : Pedido → Pedido)
    (hf : ∀ p, (f p).id = p.id) :
    (rows.map (fun p => if p.id = some id then f p else p)).find?
        (fun p => p.id = some id) =
      (rows.find? (fun p => p.id = some id)).map f := by
  induction rows with
  | nil => rfl
  | cons p rest ih =>
    by_cases hp : p.id = some id
    · have hfp : (f p).id = some id := by rw [hf p, hp]
      simp [List.find?_cons, hp, hfp]
    · simp [List.find?_cons, hp, ih]

theorem Db.findById_updateReferenciaPago (db : Db) (id : Nat) (ref : String) (now : Nat) :
    (db.updateReferenciaPago id ref now).findById id =
      (db.findById id).map
        (fun p => { p with referenciaPago := some ref, updatedAt := now }) :=
  find_map_updateRow db.rows id _ (fun _ => rfl)

theorem Db.findById_updateEstado (db : Db) (id : Nat) (estado : EstadoPedido) (now : Nat) :
    (db.updateEstado id estado now).findById id =
      (db.findById id).map (fun p => { p with estado := estado, updatedAt := now }) :=
  find_map_updateRow db.rows id _ (fun _ => rfl)

theorem procesarPago_not_pending_run (db : Db) (pedidoId : Nat) (pinfo : PaymentInfo)
    (now rand : Nat) (p : Pedido) (hfind : db.findById pedidoId = some p)
    (hnp : p.estado ≠ EstadoPedido.pendiente) :
    procesarPago db pedidoId pinfo now rand noFaults =
      { result := notPendingResult, db := db, states := [db], gatewayCalls := 0 } := by
  simp only [procesarPago, noFaults, hfind]
  simp [hnp, notPendingResult]

theorem procesarPago_pending_run (db : Db) (pedidoId : Nat) (pinfo : PaymentInfo)
    (now rand : Nat) (p : Pedido) (hfind : db.findById pedidoId = some p)
    (hpend : p.estado = EstadoPedido.pendiente) :
    procesarPago db pedidoId pinfo now rand noFaults =
      { result := { success := true
                    referenciaPago := some (referenciaFor p.metodoPago pinfo now rand)
                    error := none }
        db := (db.updateReferenciaPago pedidoId
                (referenciaFor p.metodoPago pinfo now rand) now).updateEstado
                pedidoId EstadoPedido.pagado now
        states := [db,
          db.updateReferenciaPago pedidoId (referenciaFor p.metodoPago pinfo now rand) now,
          (db.updateReferenciaPago pedidoId
            (referenciaFor p.metodoPago pinfo now rand) now).updateEstado
            pedidoId EstadoPedido.pagado now]
        gatewayCalls := 0 } := by
  simp only [procesarPago, noFaults, hfind]
  simp [hpend]

theorem procesarPago_pending_findById (db : Db) (pedidoId : Nat) (pinfo : PaymentInfo)
    (now rand : Nat) (p : Pedido) (hfind : db.findById pedidoId = some p)
    (hpend : p.estado = EstadoPedido.pendiente) :
    (procesarPago db pedidoId pinfo now rand noFaults).db.findById pedidoId =
      some { p with
        referenciaPago := some (referenciaFor p.metodoPago pinfo now rand)
        estado := EstadoPedido.pagado
        updatedAt := now } := by
  rw [procesarPago_pending_run db pedidoId pinfo now rand p hfind hpend]
  show ((db.updateReferenciaPago pedidoId _ now).updateEstado
    pedidoId EstadoPedido.pagado now).findById pedidoId = _
  rw [Db.findById_updateEstado, Db.findById_updateReferenciaPago, hfind]
  rfl

/-! ### C4 -/

/-- C4 is false as stated: for the order `pedidoC4` (constructed with
total 1 and no line items) and the one-call sequence
`updateItemCantidad 7 3` (product id 7 absent), after the call the total
is `1` while the sum of the items' subtotals is `0`. -/
theorem applyOps_total_cx :
    (applyOps pedidoC4 [PedidoOp.updateCantidad 7 3 5]).total ≠
      sumSubtotals (applyOps pedidoC4 [PedidoOp.updateCantidad 7 3 5]).items := by
  decide

/-- C4 (amended): for every order whose total initially equals the sum of
its items' subtotals, after every call of any finite sequence of
`addItem` / `removeItem` / `updateItemCantidad` calls the total again
equals the sum of the current items' subtotals (every prefix of the
sequence is itself such a sequence, so this covers each intermediate
state); moreover, in the spec's quantity-update scenario, updating item
`{productoId 1, cantidad 2, precioUnitario 50000, subtotal 100000}` to
quantity 3 sets the subtotal to 150000 and the total to 150000. -/
theorem totalInv_applyOps (p : Pedido) (h : totalInv p) (ops : List PedidoOp) :
    totalInv (applyOps p ops) ∧
      ((Pedido.make (some 1) 1 (some EstadoPedido.pendiente) 100000 "dir"
          MetodoPago.stripe none (some [⟨1, 2, 50000, 100000⟩]) none none 0
          |>.updateItemCantidad 1 3 5).items = [⟨1, 3, 50000, 150000⟩] ∧
        (Pedido.make (some 1) 1 (some EstadoPedido.pendiente) 100000 "dir"
          MetodoPago.stripe none (some [⟨1, 2, 50000, 100000⟩]) none none 0
          |>.updateItemCantidad 1 3 5).total = 150000) := by
  constructor
  · induction ops generalizing p with
    | nil => exact h
    | cons op rest ih => exact ih (applyOp p op) (totalInv_applyOp p op h)
  · constructor
    · decide
    · decide

/-- C4 witness: the amended invariant at a concrete order satisfying it. -/
theorem totalInv_applyOps_witness :
    totalInv (applyOps pedidoW4 [PedidoOp.add ⟨2, 1, 25000, 25000⟩ 3,
      PedidoOp.updateCantidad 2 4 4, PedidoOp.remove 2 5]) :=
  (totalInv_applyOps pedidoW4 (by decide)
    [PedidoOp.add ⟨2, 1, 25000, 25000⟩ 3, PedidoOp.updateCantidad 2 4 4,
      PedidoOp.remove 2 5]).1

/-! ### C5 -/

/-- C5 is false as stated: the public setter `setTotal` sets the total of
`pedidoC5` to 999 while its single line item's subtotal is 100000, so a
caller CAN set the total to a value other than the sum of the subtotals. -/
theorem setTotal_breaks_invariant_cx :
    (pedidoC5.setTotal 999 5).total ≠
      sumSubtotals (pedidoC5.setTotal 999 5).items := by
  decide

/-- C5 (amended): the item operations `addItem` / `removeItem` /
`updateItemCantidad` do maintain `total = sum of subtotals`, but the total
is NOT a protected derived value: the entity exposes the raw setter
`setTotal`, which stores any caller-supplied total verbatim while leaving
the items unchanged, and the constructor likewise stores its `total`
argument without recomputing it from the items. -/
theorem setTotal_stores_verbatim (p : Pedido) (t : Int) (now : Nat)
    (id : Option Nat) (usuarioId : Nat) (estado : Option EstadoPedido)
    (dir : String) (mp : MetodoPago) (ref : Option String)
    (items : Option (List PedidoItem)) (ca ua : Option Nat) (n0 : Nat) :
    (p.setTotal t now).total = t ∧ (p.setTotal t now).items = p.items ∧
      (Pedido.make id usuarioId estado t dir mp ref items ca ua n0).total = t ∧
      (∀ op : PedidoOp, totalInv p → totalInv (applyOp p op)) := by
  refine ⟨rfl, rfl, rfl, ?_⟩
  intro op h
  exact totalInv_applyOp p op h

/-! ### C9 -/

/-- C9 is false as stated: `removeItem` with an absent product id is not a
no-op on the whole order — on `pedidoC9` (total 3, no items, updatedAt 0)
`removeItem 7` at clock 5 recomputes the total to 0 and refreshes
`updatedAt` to 5, changing the order. -/
theorem removeItem_missing_updates_cx :
    pedidoC9.removeItem 7 5 ≠ pedidoC9 ∧
      (pedidoC9.removeItem 7 5).total = 0 ∧ pedidoC9.total = 3 ∧
      (pedidoC9.removeItem 7 5).updatedAt = 5 ∧ pedidoC9.updatedAt = 0 := by
  refine ⟨?_, by decide, by decide, by decide, by decide⟩
  intro h
  have : (pedidoC9.removeItem 7 5).updatedAt = pedidoC9.updatedAt := by rw [h]
  revert this
  decide

/-- C9 (amended): for a product id absent from the order's items,
`updateItemCantidad` is a complete no-op (the order, including `updatedAt`,
is returned unchanged) and raises no error; `removeItem` leaves the items
unchanged and raises no error, but still recomputes the total to the sum
of the items' subtotals and refreshes `updatedAt`. -/
theorem missing_product_noop_behavior (p : Pedido) (productoId : Nat)
    (cantidad : Int) (now : Nat)
    (h : p.items.all (fun item => item.productoId ≠ productoId)) :
    p.updateItemCantidad productoId cantidad now = p ∧
      (p.removeItem productoId now).items = p.items ∧
      (p.removeItem productoId now).total = sumSubtotals p.items ∧
      (p.removeItem productoId now).updatedAt = now := by
  have hmem : ∀ item ∈ p.items, ¬item.productoId = productoId := by
    intro item hitem
    simpa using List.all_eq_true.mp h item hitem
  have hnone : p.items.any (fun item => item.productoId = productoId) = false := by
    rw [List.any_eq_false]
    intro item hitem
    simpa using hmem item hitem
  have hfilter :
      List.filter (fun item => !decide (item.productoId = productoId)) p.items = p.items := by
    apply List.filter_eq_self.mpr
    intro item hitem
    simpa using hmem item hitem
  refine ⟨?_, ?_, ?_, ?_⟩
  · unfold Pedido.updateItemCantidad
    simp [hnone]
  · simp [Pedido.removeItem, Pedido.recalcularTotal, hfilter]
  · simp only [Pedido.removeItem, Pedido.recalcularTotal]
    simp [hfilter]
  · simp [Pedido.removeItem, Pedido.recalcularTotal]

/-- C9 witness: the amended behavior at `pedidoC9` with product id 7. -/
theorem missing_product_noop_behavior_witness :
    pedidoC9.updateItemCantidad 7 3 5 = pedidoC9 ∧
      (pedidoC9.removeItem 7 5).items = pedidoC9.items ∧
      (pedidoC9.removeItem 7 5).total = sumSubtotals pedidoC9.items ∧
      (pedidoC9.removeItem 7 5).updatedAt = 5 :=
  missing_product_noop_behavior pedidoC9 7 3 5 (by decide)

/-! ### C1 -/

/-- C1: if the order exists but is not in `pendiente` state,
`procesarPago` returns the not-pending failure result and returns with
the store — hence the order's state, payment reference and items —
untouched (no write is issued); consequently, after one successful
settlement of a `pendiente` order, a second settlement attempt on the
same order is rejected with the same not-pending failure and leaves the
store exactly as the first settlement left it. -/
theorem procesarPago_notPending_guard :
    (∀ (db : Db) (pedidoId : Nat) (pinfo : PaymentInfo) (now rand : Nat) (p : Pedido),
      db.findById pedidoId = some p → p.estado ≠ EstadoPedido.pendiente →
      procesarPago db pedidoId pinfo now rand noFaults =
        { result := notPendingResult, db := db, states := [db], gatewayCalls := 0 }) ∧
    (∀ (db : Db) (pedidoId : Nat) (pinfo pinfo2 : PaymentInfo)
      (now rand now2 rand2 : Nat) (p : Pedido),
      db.findById pedidoId = some p → p.estado = EstadoPedido.pendiente →
      (procesarPago db pedidoId pinfo now rand noFaults).result.success = true ∧
      procesarPago (procesarPago db pedidoId pinfo now rand noFaults).db pedidoId
          pinfo2 now2 rand2 noFaults =
        { result := notPendingResult
          db := (procesarPago db pedidoId pinfo now rand noFaults).db
          states := [(procesarPago db pedidoId pinfo now rand noFaults).db]
          gatewayCalls := 0 }) := by
  constructor
  · intro db pedidoId pinfo now rand p hfind hnp
    exact procesarPago_not_pending_run db pedidoId pinfo now rand p hfind hnp
  · intro db pedidoId pinfo pinfo2 now rand now2 rand2 p hfind hpend
    constructor
    · rw [procesarPago_pending_run db pedidoId pinfo now rand p hfind hpend]
    · apply procesarPago_not_pending_run _ _ _ _ _ _
        (procesarPago_pending_findById db pedidoId pinfo now rand p hfind hpend)
      intro hcontra
      simp at hcontra

/-- C1 witness: on the store `dbC1`, settling order 1 (already `pagado`)
is rejected with no write, and settling the pending order 2 then settling
it again gets the not-pending rejection the second time, with the store
unchanged from the first settlement. -/
theorem procesarPago_notPending_guard_witness :
    (procesarPago dbC1 1 ⟨some "TR-1"⟩ 5 6 noFaults =
      { result := notPendingResult, db := dbC1, states := [dbC1], gatewayCalls := 0 }) ∧
    ((procesarPago dbC1 2 ⟨some "TR-1"⟩ 5 6 noFaults).result.success = true ∧
      procesarPago (procesarPago dbC1 2 ⟨some "TR-1"⟩ 5 6 noFaults).db 2
          ⟨some "TR-2"⟩ 7 8 noFaults =
        { result := notPendingResult
          db := (procesarPago dbC1 2 ⟨some "TR-1"⟩ 5 6 noFaults).db
          states := [(procesarPago dbC1 2 ⟨some "TR-1"⟩ 5 6 noFaults).db]
          gatewayCalls := 0 }) :=
  ⟨procesarPago_notPending_guard.1 dbC1 1 ⟨some "TR-1"⟩ 5 6 rowC1a (by decide) (by decide),
    procesarPago_notPending_guard.2 dbC1 2 ⟨some "TR-1"⟩ ⟨some "TR-2"⟩ 5 6 7 8 rowC1b
      (by decide) (by decide)⟩

/-! ### C2 -/

/-- C2 is false as stated: settling the pending bank-transfer order of
`dbC2` with proof reference "TR-1" durably exposes an intermediate table
state — between the committed `updateReferenciaPago` write and the
`updateEstado` write — in which order 1 carries a non-empty payment
reference while still in `pendiente` state. -/
theorem procesarPago_intermediate_cx :
    ((procesarPago dbC2 1 ⟨some "TR-1"⟩ 5 6 noFaults).states.any
      (fun d => hasPendingWithRef d 1)) = true := by
  decide

/-- C2 (amended): `procesarPago` performs the paid transition as two
separate repository writes — the payment reference first, then the state:
for every pending order the durably visible table states are exactly
`[initial, after-reference-write, after-state-write]`, and the middle one
records the payment reference while the state is still `pendiente`.  An
intermediate persisted state with a non-empty reference and `pendiente`
state is therefore observable; in the other direction, no visible state
of the run shows `pagado` with an unset payment reference. -/
theorem procesarPago_write_order (db : Db) (pedidoId : Nat) (pinfo : PaymentInfo)
    (now rand : Nat) (p : Pedido) (hfind : db.findById pedidoId = some p)
    (hpend : p.estado = EstadoPedido.pendiente) :
    ((procesarPago db pedidoId pinfo now rand noFaults).states =
      [db,
        db.updateReferenciaPago pedidoId (referenciaFor p.metodoPago pinfo now rand) now,
        (db.updateReferenciaPago pedidoId
          (referenciaFor p.metodoPago pinfo now rand) now).updateEstado
          pedidoId EstadoPedido.pagado now]) ∧
    ((db.updateReferenciaPago pedidoId
        (referenciaFor p.metodoPago pinfo now rand) now).findById pedidoId =
      some { p with
        referenciaPago := some (referenciaFor p.metodoPago pinfo now rand)
        updatedAt := now } ∧
      p.estado = EstadoPedido.pendiente) ∧
    (∀ d ∈ (procesarPago db pedidoId pinfo now rand noFaults).states,
      ∀ q : Pedido, d.findById pedidoId = some q →
        ¬(q.estado = EstadoPedido.pagado ∧ q.referenciaPago = none)) := by
  have hrun := procesarPago_pending_run db pedidoId pinfo now rand p hfind hpend
  have hmid : (db.updateReferenciaPago pedidoId
      (referenciaFor p.metodoPago pinfo now rand) now).findById pedidoId =
      some { p with
        referenciaPago := some (referenciaFor p.metodoPago pinfo now rand)
        updatedAt := now } := by
    rw [Db.findById_updateReferenciaPago, hfind]
    rfl
  refine ⟨by rw [hrun], ⟨hmid, hpend⟩, ?_⟩
  intro d hd q hq
  rw [hrun] at hd
  simp only [List.mem_cons, List.mem_singleton] at hd
  rcases hd with hd | hd | hd | hd
  · subst hd
    rw [hfind] at hq
    injection hq with hq
    subst hq
    rintro ⟨hpag, -⟩
    rw [hpend] at hpag
    exact EstadoPedido.noConfusion hpag
  · subst hd
    rw [hmid] at hq
    injection hq with hq
    subst hq
    rintro ⟨hpag, -⟩
    simp only [] at hpag
    rw [hpend] at hpag
    exact EstadoPedido.noConfusion hpag
  · subst hd
    rw [Db.findById_updateEstado, Db.findById_updateReferenciaPago, hfind] at hq
    injection hq with hq
    subst hq
    rintro ⟨-, href⟩
    exact Option.noConfusion href
  · exact absurd hd (by simp)

/-- C2 witness: the amended write-order property at the concrete pending
order of `dbC2w`. -/
theorem procesarPago_write_order_witness :
    ((procesarPago dbC2w 1 ⟨some "TR-1"⟩ 5 6 noFaults).states =
      [dbC2w,
        dbC2w.updateReferenciaPago 1 (referenciaFor rowC2w.metodoPago ⟨some "TR-1"⟩ 5 6) 5,
        (dbC2w.updateReferenciaPago 1
          (referenciaFor rowC2w.metodoPago ⟨some "TR-1"⟩ 5 6) 5).updateEstado
          1 EstadoPedido.pagado 5]) ∧
    ((dbC2w.updateReferenciaPago 1
        (referenciaFor rowC2w.metodoPago ⟨some "TR-1"⟩ 5 6) 5).findById 1 =
      some { rowC2w with
        referenciaPago := some (referenciaFor rowC2w.metodoPago ⟨some "TR-1"⟩ 5 6)
        updatedAt := 5 } ∧
      rowC2w.estado = EstadoPedido.pendiente) ∧
    (∀ d ∈ (procesarPago dbC2w 1 ⟨some "TR-1"⟩ 5 6 noFaults).states,
      ∀ q : Pedido, d.findById 1 = some q →
        ¬(q.estado = EstadoPedido.pagado ∧ q.referenciaPago = none)) :=
  procesarPago_write_order dbC2w 1 ⟨some "TR-1"⟩ 5 6 rowC2w (by decide) (by decide)

/-! ### C3 -/

/-- C3 is false as stated: `entregado → pendiente` is not in the spec's
legal-transition table, yet requesting it via `updateEstadoPedido` on the
delivered order of `dbC3` raises no invalid-transition error — it
succeeds, returns the re-read order with state `pendiente`, and changes
the store. -/
theorem updateEstadoPedido_illegal_cx :
    specLegalTransition EstadoPedido.entregado EstadoPedido.pendiente = false ∧
      ((updateEstadoPedido dbC3 1 EstadoPedido.pendiente 5).2.map
        (fun q => q.estado)) = some EstadoPedido.pendiente ∧
      (updateEstadoPedido dbC3 1 EstadoPedido.pendiente 5).1 ≠ dbC3 := by
  refine ⟨rfl, by decide, by decide⟩

/-- C3 (amended): `updateEstadoPedido` applies no transition-legality
check at any layer: for EVERY requested target state — whether or not
`specLegalTransition` allows it from the current state — it
unconditionally overwrites the stored state with the target (refreshing
`updated_at`) and returns the updated order; no invalid-transition error
exists on this code path. -/
theorem updateEstadoPedido_unconditional (db : Db) (id : Nat)
    (estado : EstadoPedido) (now : Nat) (p : Pedido)
    (hfind : db.findById id = some p) :
    (updateEstadoPedido db id estado now).2 =
        some { p with estado := estado, updatedAt := now } ∧
      (updateEstadoPedido db id estado now).1 = db.updateEstado id estado now := by
  constructor
  · show (db.updateEstado id estado now).findById id = _
    rw [Db.findById_updateEstado, hfind]
    rfl
  · rfl

/-- C3 witness: the unconditional overwrite at the delivered order of
`dbC3` with illegal target `pendiente`. -/
theorem updateEstadoPedido_unconditional_witness :
    (updateEstadoPedido dbC3 1 EstadoPedido.pendiente 5).2 =
        some { rowC3 with estado := EstadoPedido.pendiente, updatedAt := 5 } ∧
      (updateEstadoPedido dbC3 1 EstadoPedido.pendiente 5).1 =
        dbC3.updateEstado 1 EstadoPedido.pendiente 5 :=
  updateEstadoPedido_unconditional dbC3 1 EstadoPedido.pendiente 5 rowC3 (by decide)

/-! ### C6 -/

/-- C6 is false as stated: the create-order request `dtoC6`, which
supplies the optional `referenciaPago` field as "REF-X", is turned by
`CreatePedidoDTO.toEntity` into an order that is in `pendiente` state and
already carries a payment reference — so an operation of the system does
produce a pending order with a payment reference set, and the reference
is not set exclusively at the transition into `pagado`. -/
theorem pending_with_referencia_cx :
    (dtoC6.toEntity 0).estado = EstadoPedido.pendiente ∧
      (dtoC6.toEntity 0).referenciaPago = some "REF-X" :=
  ⟨rfl, rfl⟩

/-- C6 (amended): the reference/state coupling is not enforced by the
entity or the DTO layer: `toEntity` builds a `pendiente` order carrying
whatever optional `referenciaPago` the client request supplied, and the
raw setter `setReferenciaPago` records a reference in any state without
touching the state.  Only the `procesarPago` path writes the reference
together with the transition to `pagado`. -/
theorem toEntity_passes_referencia (dto : CreatePedidoDTO) (now : Nat)
    (p : Pedido) (ref : String) (n : Nat) :
    (dto.toEntity now).estado = EstadoPedido.pendiente ∧
      (dto.toEntity now).referenciaPago = dto.referenciaPago ∧
      (p.setReferenciaPago ref n).referenciaPago = some ref ∧
      (p.setReferenciaPago ref n).estado = p.estado :=
  ⟨rfl, rfl, rfl, rfl⟩

/-! ### C7 -/

/-- C7: for a pending bank-transfer (`transferencia`) order, settlement
with a caller-supplied non-empty proof reference succeeds, records exactly
that reference, and leaves the order `pagado`; with the proof absent, the
synthesized token `transfer_<now>` is recorded instead; in both cases no
external payment-gateway call is made. -/
theorem procesarPago_transferencia_ok (db : Db) (pedidoId : Nat)
    (now rand : Nat) (p : Pedido) (r : String)
    (hfind : db.findById pedidoId = some p)
    (hpend : p.estado = EstadoPedido.pendiente)
    (hmp : p.metodoPago = MetodoPago.transferencia) (hr : r ≠ "") :
    ((procesarPago db pedidoId ⟨some r⟩ now rand noFaults).result =
        { success := true, referenciaPago := some r, error := none } ∧
      (procesarPago db pedidoId ⟨some r⟩ now rand noFaults).db.findById pedidoId =
        some { p with
          referenciaPago := some r, estado := EstadoPedido.pagado, updatedAt := now } ∧
      (procesarPago db pedidoId ⟨some r⟩ now rand noFaults).gatewayCalls = 0) ∧
    ((procesarPago db pedidoId ⟨none⟩ now rand noFaults).result =
        { success := true, referenciaPago := some ("transfer_" ++ toString now)
          error := none } ∧
      (procesarPago db pedidoId ⟨none⟩ now rand noFaults).db.findById pedidoId =
        some { p with
          referenciaPago := some ("transfer_" ++ toString now)
          estado := EstadoPedido.pagado, updatedAt := now } ∧
      (procesarPago db pedidoId ⟨none⟩ now rand noFaults).gatewayCalls = 0) := by
  have hrefS : referenciaFor p.metodoPago ⟨some r⟩ now rand = r := by
    rw [hmp]
    simp [referenciaFor, hr]
  have hrefN : referenciaFor p.metodoPago ⟨none⟩ now rand =
      "transfer_" ++ toString now := by
    rw [hmp]
    rfl
  have hrunS := procesarPago_pending_run db pedidoId ⟨some r⟩ now rand p hfind hpend
  have hrunN := procesarPago_pending_run db pedidoId ⟨none⟩ now rand p hfind hpend
  have hdbS := procesarPago_pending_findById db pedidoId ⟨some r⟩ now rand p hfind hpend
  have hdbN := procesarPago_pending_findById db pedidoId ⟨none⟩ now rand p hfind hpend
  rw [hrefS] at hrunS hdbS
  rw [hrefN] at hrunN hdbN
  refine ⟨⟨by rw [hrunS], hdbS, by rw [hrunS]⟩, ⟨by rw [hrunN], hdbN, by rw [hrunN]⟩⟩

/-- C7 witness: the spec's bank-transfer scenario on `dbC7` with proof
"TR-1", and the proof-absent settlement, at clock 5. -/
theorem procesarPago_transferencia_ok_witness :
    ((procesarPago dbC7 1 ⟨some "TR-1"⟩ 5 6 noFaults).result =
        { success := true, referenciaPago := some "TR-1", error := none } ∧
      (procesarPago dbC7 1 ⟨some "TR-1"⟩ 5 6 noFaults).db.findById 1 =
        some { rowC7 with
          referenciaPago := some "TR-1", estado := EstadoPedido.pagado, updatedAt := 5 } ∧
      (procesarPago dbC7 1 ⟨some "TR-1"⟩ 5 6 noFaults).gatewayCalls = 0) ∧
    ((procesarPago dbC7 1 ⟨none⟩ 5 6 noFaults).result =
        { success := true, referenciaPago := some ("transfer_" ++ toString 5)
          error := none } ∧
      (procesarPago dbC7 1 ⟨none⟩ 5 6 noFaults).db.findById 1 =
        some { rowC7 with
          referenciaPago := some ("transfer_" ++ toString 5)
          estado := EstadoPedido.pagado, updatedAt := 5 } ∧
      (procesarPago dbC7 1 ⟨none⟩ 5 6 noFaults).gatewayCalls = 0) :=
  procesarPago_transferencia_ok dbC7 1 5 6 rowC7 "TR-1" (by decide) (by decide)
    (by decide) (by decide)

/-! ### C8 -/

/-- C8 is false as stated: settling the pending Stripe order of `dbC8`
invokes no external payment-gateway collaborator at all (zero gateway
calls) and still succeeds, recording the locally synthesized reference
`stripe_5_6` — the reference is not obtained from a gateway, and there is
no gateway outcome that could make settlement fail. -/
theorem procesarPago_stripe_no_gateway_cx :
    (procesarPago dbC8 1 ⟨none⟩ 5 6 noFaults).gatewayCalls = 0 ∧
      (procesarPago dbC8 1 ⟨none⟩ 5 6 noFaults).result =
        { success := true, referenciaPago := some "stripe_5_6", error := none } := by
  decide

/-- C8 (amended): for a pending order whose method is `stripe` or
`paypal`, `procesarPago` makes no external payment-gateway call; it
synthesizes the payment reference locally (`stripe_<now>_<rand>` resp.
`paypal_<now>_<rand>`), always succeeds (absent storage faults), records
the synthesized reference, and leaves the order `pagado` — there is no
gateway failure path. -/
theorem procesarPago_stripe_paypal_local_ref (db : Db) (pedidoId : Nat)
    (pinfo : PaymentInfo) (now rand : Nat) (p : Pedido)
    (hfind : db.findById pedidoId = some p)
    (hpend : p.estado = EstadoPedido.pendiente)
    (hmp : p.metodoPago = MetodoPago.stripe ∨ p.metodoPago = MetodoPago.paypal) :
    (procesarPago db pedidoId pinfo now rand noFaults).gatewayCalls = 0 ∧
      (procesarPago db pedidoId pinfo now rand noFaults).result =
        { success := true
          referenciaPago := some (referenciaFor p.metodoPago pinfo now rand)
          error := none } ∧
      (procesarPago db pedidoId pinfo now rand noFaults).db.findById pedidoId =
        some { p with
          referenciaPago := some (referenciaFor p.metodoPago pinfo now rand)
          estado := EstadoPedido.pagado, updatedAt := now } ∧
      referenciaFor p.metodoPago pinfo now rand =
        (if p.metodoPago = MetodoPago.stripe then
          "stripe_" ++ toString now ++ "_" ++ toString rand
        else
          "paypal_" ++ toString now ++ "_" ++ toString rand) := by
  have hrun := procesarPago_pending_run db pedidoId pinfo now rand p hfind hpend
  refine ⟨by rw [hrun], by rw [hrun],
    procesarPago_pending_findById db pedidoId pinfo now rand p hfind hpend, ?_⟩
  rcases hmp with hmp | hmp
  · rw [hmp]
    simp [referenciaFor]
  · rw [hmp]
    simp [referenciaFor]

/-- C8 witness: the amended local-synthesis behavior at the pending
Stripe order of `dbC8`. -/
theorem procesarPago_stripe_paypal_local_ref_witness :
    (procesarPago dbC8 1 ⟨none⟩ 5 6 noFaults).gatewayCalls = 0 ∧
      (procesarPago dbC8 1 ⟨none⟩ 5 6 noFaults).result =
        { success := true
          referenciaPago := some (referenciaFor rowC8.metodoPago ⟨none⟩ 5 6)
          error := none } ∧
      (procesarPago dbC8 1 ⟨none⟩ 5 6 noFaults).db.findById 1 =
        some { rowC8 with
          referenciaPago := some (referenciaFor rowC8.metodoPago ⟨none⟩ 5 6)
          estado := EstadoPedido.pagado, updatedAt := 5 } ∧
      referenciaFor rowC8.metodoPago ⟨none⟩ 5 6 =
        (if rowC8.metodoPago = MetodoPago.stripe then
          "stripe_" ++ toString 5 ++ "_" ++ toString 6
        else
          "paypal_" ++ toString 5 ++ "_" ++ toString 6) :=
  procesarPago_stripe_paypal_local_ref dbC8 1 ⟨none⟩ 5 6 rowC8 (by decide) (by decide)
    (Or.inl (by decide))

/-! ### C10 -/

/-- C10: `procesarPago` is total in its result type: it always yields a
structured `{ success, referenciaPago?, error? }` value, and when the
repository raises a storage exception — during the initial read, the
reference write, or the state write — the surrounding `try/catch` turns
the exception into `{ success: false, error: message }` instead of
propagating it; every failure result carries an error message. -/
theorem procesarPago_total_result (db : Db) (pedidoId : Nat) (pinfo : PaymentInfo)
    (now rand : Nat) (faults : StorageFaults) :
    ((procesarPago db pedidoId pinfo now rand faults).result.success = false →
      ((procesarPago db pedidoId pinfo now rand faults).result.error).isSome = true) ∧
    (∀ msg, faults.failFind = some msg →
      (procesarPago db pedidoId pinfo now rand faults).result =
        { success := false, referenciaPago := none, error := some msg }) ∧
    (∀ msg (p : Pedido), faults.failFind = none → db.findById pedidoId = some p →
      p.estado = EstadoPedido.pendiente → faults.failRef = some msg →
      (procesarPago db pedidoId pinfo now rand faults).result =
        { success := false, referenciaPago := none, error := some msg }) ∧
    (∀ msg (p : Pedido), faults.failFind = none → db.findById pedidoId = some p →
      p.estado = EstadoPedido.pendiente → faults.failRef = none →
      faults.failEstado = some msg →
      (procesarPago db pedidoId pinfo now rand faults).result =
        { success := false, referenciaPago := none, error := some msg }) := by
  obtain ⟨ff, fr, fe⟩ := faults
  refine ⟨?_, ?_, ?_, ?_⟩
  · cases ff with
    | some msg => intro _; rfl
    | none =>
      cases hfind : db.findById pedidoId with
      | none => intro _; simp [procesarPago, hfind]
      | some p =>
        by_cases hpend : p.estado = EstadoPedido.pendiente
        · cases fr with
          | some msg => intro _; simp [procesarPago, hfind, hpend]
          | none =>
            cases fe with
            | some msg => intro _; simp [procesarPago, hfind, hpend]
            | none =>
              intro hcontra
              simp [procesarPago, hfind, hpend] at hcontra
        · intro _; simp [procesarPago, hfind, hpend]
  · intro msg hff
    have hff' : ff = some msg := hff
    subst hff'
    rfl
  · intro msg p hff hfind hpend hfr
    have hfr' : fr = some msg := hfr
    have hff' : ff = none := hff
    subst hfr'
    subst hff'
    simp [procesarPago, hfind, hpend]
  · intro msg p hff hfind hpend hfr hfe
    have hfe' : fe = some msg := hfe
    have hff' : ff = none := hff
    have hfr' : fr = none := hfr
    subst hfe'
    subst hff'
    subst hfr'
    simp [procesarPago, hfind, hpend]

/-- C10 witness: on the pending order of `dbC10`, a run whose
`updateReferenciaPago` write throws "connection lost" returns the
structured failure result carrying that message. -/
theorem procesarPago_total_result_witness :
    (procesarPago dbC10 1 ⟨none⟩ 5 6 faultsC10).result =
      { success := false, referenciaPago := none, error := some "connection lost" } :=
  (procesarPago_total_result dbC10 1 ⟨none⟩ 5 6 faultsC10).2.2.1 "connection lost"
    rowC10 rfl (by decide) (by decide) rfl

end MantasTrenzas
